import Mathlib

set_option maxHeartbeats 1000000
set_option maxRecDepth 10000

/-!
Verification development for the openmina transaction logic, sync-ledger
action gating and external snark-worker facade.

The definitions below are a shallow embedding of the Rust source in
`ledger/src/scan_state/transaction_logic.rs`,
`snarker/src/transition_frontier/sync/ledger/transition_frontier_sync_ledger_actions.rs`
and `cli/src/commands/snarker/ext_snark_worker.rs`.  Machine integers are
`Nat` with explicit bounds (`u64`, `u32`); fallible Rust functions returning
`Result<_, String>` become `Except String _`; ledger mutation becomes
explicit state passing of the ledger value.
-/

/-- `2 ^ 64`, the exclusive upper bound of Rust `u64` values. -/
def U64_LIMIT : Nat := 18446744073709551616

/-- `u64::MAX = 2 ^ 64 - 1`. -/
def U64_MAX : Nat := 18446744073709551615

/-- `2 ^ 32`, the exclusive upper bound of Rust `u32` values. -/
def U32_LIMIT : Nat := 4294967296

/-- Modelled from the spec: the `currency` module of the ledger crate is not
under `src/`; balances and amounts are `u64` values with checked arithmetic
(`sub_amount` / `checked_sub` return `None` on underflow).  We represent a
`u64` as a `Nat` and subtraction as an `Option Nat`. -/
def sub_amount64 (b a : Nat) : Option Nat :=
  if a ≤ b then some (b - a) else none

/-- Modelled from the spec: checked `u64` addition (`add_amount` /
`checked_add` return `None` on overflow past `u64::MAX`). -/
def add_amount64 (b a : Nat) : Option Nat :=
  if b + a < U64_LIMIT then some (b + a) else none

/-- Modelled from the spec: `Nonce` is a `u32`; `Nonce::incr` is a wrapping
increment. -/
def nonce_incr (n : Nat) : Nat := (n + 1) % U32_LIMIT

/-- Modelled from the spec: token identifiers; only structural equality and
the default token are relevant to the transaction logic.  We represent a
`TokenId` as a `Nat`, with `1` as the default token. -/
def TokenId.default_id : Nat := 1

/-- Modelled from the spec: `AccountId = (public_key, token_id)`, equality is
structural.  Public keys are represented as opaque `Nat` identifiers. -/
structure AccountId where
  public_key : Nat
  token_id : Nat
deriving DecidableEq

/-- Account timing: `Untimed`, or `Timed` with a vesting schedule
(`transaction_logic.rs` re-exports `crate::Timing`). -/
inductive Timing where
  | Untimed : Timing
  | Timed (initial_minimum_balance cliff_time cliff_amount vesting_period
      vesting_increment : Nat) : Timing
deriving DecidableEq

/-- Modelled from the spec: per-field access control gating account mutation;
the transaction logic only consults the `Send`, `Receive` and `SetDelegate`
permissions, each of which either allows or denies the update for a signed
command. -/
structure Permissions where
  send : Bool
  receive : Bool
  set_delegate : Bool
deriving DecidableEq

/-- The three permissions consulted by the embedded code
(`crate::PermissionTo`). -/
inductive PermissionTo where
  | Send : PermissionTo
  | Receive : PermissionTo
  | SetDelegate : PermissionTo
deriving DecidableEq

/-- Modelled from the spec: the `Account` record
`{ id, balance (u64), nonce (u32), delegate, receipt_chain_hash, timing,
permissions, ... }`; the zkapp fields are not consulted by the embedded
code and are omitted.  The receipt chain hash is a field element, kept
opaque as a `Nat`. -/
structure Account where
  public_key : Nat
  token_id : Nat
  balance : Nat
  nonce : Nat
  receipt_chain_hash : Nat
  delegate : Option Nat
  timing : Timing
  permissions : Permissions
deriving DecidableEq

/-- The account's `AccountId`. -/
def Account.id (a : Account) : AccountId := ⟨a.public_key, a.token_id⟩

/-- `Account::has_permission_to` for the three permissions used by the
transaction logic. -/
def Account.has_permission_to (a : Account) : PermissionTo → Bool
  | PermissionTo.Send => a.permissions.send
  | PermissionTo.Receive => a.permissions.receive
  | PermissionTo.SetDelegate => a.permissions.set_delegate

/-- Modelled from the spec: default (user) permissions of a freshly created
account allow every signed-command operation; in particular the default
permissions allow receiving (`has_permission_to_receive` relies on this for
new accounts). -/
def Permissions.user_default : Permissions := ⟨true, true, true⟩

/-- Modelled from the spec: `Account::initialize(account_id)`, the empty
account created at `get_or_create` for a missing id.  Named `account_init`
here. -/
def account_init (id : AccountId) : Account :=
  { public_key := id.public_key
    token_id := id.token_id
    balance := 0
    nonce := 0
    receipt_chain_hash := 0
    delegate := none
    timing := Timing.Untimed
    permissions := Permissions.user_default }

/-- Modelled from the spec: `Account::create_with(account_id, balance)`. -/
def Account.create_with (id : AccountId) (balance : Nat) : Account :=
  { account_init id with balance := balance }

/-- `Added` / `Existed` result of `get_or_create`
(`transaction_logic.rs::AccountState`). -/
inductive AccountState where
  | Added : AccountState
  | Existed : AccountState
deriving DecidableEq

/-- Modelled from the spec: the Merkle account ledger behind `LedgerIntf`,
`mapping AccountId → Account`; locations are leaf indices.  We materialize
it as the list of accounts in location order; `location_of_account` is the
index of the account with the given id. -/
abbrev Ledger : Type := List Account

/-- `LedgerIntf::location_of_account`. -/
def Ledger.location_of_account (l : Ledger) (id : AccountId) : Option Nat :=
  List.findIdx? (fun a => a.id = id) l

/-- `LedgerIntf::get`. -/
def Ledger.get (l : Ledger) (loc : Nat) : Option Account :=
  List.get? l loc

/-- `LedgerIntf::set`. -/
def Ledger.set (l : Ledger) (loc : Nat) (a : Account) : Ledger :=
  List.set l loc a

/-- Modelled from the spec: `get_or_create(id) → (Added|Existed, account,
location)`; a missing account is created (appended) initialized with
`account_init`, and `Added` triggers account-creation-fee accounting in
callers.  Returns the possibly-extended ledger. -/
def Ledger.get_or_create (l : Ledger) (id : AccountId) :
    AccountState × Account × Nat × Ledger :=
  match l.location_of_account id with
  | some loc =>
      (AccountState.Existed, (l.get loc).getD (account_init id), loc, l)
  | none =>
      (AccountState.Added, account_init id, l.length, l ++ [account_init id])

/-- Modelled from the spec: `create_new_account(id, acct) →
Result<(), AlreadyExists>`; appends the account at the next free leaf. -/
def Ledger.create_new_account (l : Ledger) (id : AccountId) (a : Account) :
    Except String Ledger :=
  match l.location_of_account id with
  | some _ => Except.error "AlreadyExists"
  | none => Except.ok (l ++ [a])

/-- `transaction_logic.rs::TransactionFailure` (the full enum; the `i64`
argument of `AccountAppStatePreconditionUnsatisfied` becomes `Int`). -/
inductive TransactionFailure where
  | Predicate
  | SourceNotPresent
  | ReceiverNotPresent
  | AmountInsufficientToCreateAccount
  | CannotPayCreationFeeInToken
  | SourceInsufficientBalance
  | SourceMinimumBalanceViolation
  | ReceiverAlreadyExists
  | TokenOwnerNotCaller
  | Overflow
  | GlobalExcessOverflow
  | LocalExcessOverflow
  | LocalSupplyIncreaseOverflow
  | GlobalSupplyIncreaseOverflow
  | SignedCommandOnZkappAccount
  | ZkappAccountNotPresent
  | UpdateNotPermittedBalance
  | UpdateNotPermittedTimingExistingAccount
  | UpdateNotPermittedDelegate
  | UpdateNotPermittedAppState
  | UpdateNotPermittedVerificationKey
  | UpdateNotPermittedSequenceState
  | UpdateNotPermittedZkappUri
  | UpdateNotPermittedTokenSymbol
  | UpdateNotPermittedPermissions
  | UpdateNotPermittedNonce
  | UpdateNotPermittedVotingFor
  | ZkappCommandReplayCheckFailed
  | FeePayerNonceMustIncrease
  | FeePayerMustBeSigned
  | AccountBalancePreconditionUnsatisfied
  | AccountNoncePreconditionUnsatisfied
  | AccountReceiptChainHashPreconditionUnsatisfied
  | AccountDelegatePreconditionUnsatisfied
  | AccountSequenceStatePreconditionUnsatisfied
  | AccountAppStatePreconditionUnsatisfied (i : Int)
  | AccountProvedStatePreconditionUnsatisfied
  | AccountIsNewPreconditionUnsatisfied
  | ProtocolStatePreconditionUnsatisfied
  | IncorrectNonce
  | InvalidFeeExcess
  | Cancelled
deriving DecidableEq

/-- `TransactionFailure::to_string` for the failure that
`apply_user_command_unchecked` converts into a fatal error string
(`Update_not_permitted_balance`); the remaining display strings are not
consulted by the embedded code paths. -/
def TransactionFailure.to_display : TransactionFailure → String
  | TransactionFailure.UpdateNotPermittedBalance => "Update_not_permitted_balance"
  | TransactionFailure.SourceNotPresent => "Source_not_present"
  | TransactionFailure.ReceiverNotPresent => "Receiver_not_present"
  | TransactionFailure.SourceInsufficientBalance => "Source_insufficient_balance"
  | TransactionFailure.SourceMinimumBalanceViolation => "Source_minimum_balance_violation"
  | TransactionFailure.Overflow => "Overflow"
  | TransactionFailure.UpdateNotPermittedDelegate => "update_not_permitted_delegate"
  | TransactionFailure.AmountInsufficientToCreateAccount => "Amount_insufficient_to_create_account"
  | _ => "Other_failure"

/-- `transaction_logic.rs::TransactionStatus`: `Applied`, or `Failed` with a
list of failure buckets. -/
inductive TransactionStatus where
  | Applied : TransactionStatus
  | Failed (failures : List (List TransactionFailure)) : TransactionStatus
deriving DecidableEq

/-- `with_status.ml` / `transaction_logic.rs::WithStatus`. -/
structure WithStatus (α : Type) where
  data : α
  status : TransactionStatus
deriving DecidableEq

/-- `transaction_logic.rs::single_failure()`. -/
def single_failure : List (List TransactionFailure) :=
  [[TransactionFailure.UpdateNotPermittedBalance]]

/-- `signed_command::PaymentPayload`. -/
structure PaymentPayload where
  source_pk : Nat
  receiver_pk : Nat
  amount : Nat
deriving DecidableEq

/-- `signed_command::StakeDelegationPayload::SetDelegate`. -/
structure StakeDelegationPayload where
  delegator : Nat
  new_delegate : Nat
deriving DecidableEq

/-- `signed_command::Body`. -/
inductive SignedCommandBody where
  | Payment (p : PaymentPayload) : SignedCommandBody
  | StakeDelegation (s : StakeDelegationPayload) : SignedCommandBody
deriving DecidableEq

/-- `signed_command::Common` (the memo is an opaque byte vector). -/
structure SignedCommandCommon where
  fee : Nat
  fee_payer_pk : Nat
  nonce : Nat
  valid_until : Nat
  memo : List Nat
deriving DecidableEq

/-- `signed_command::SignedCommandPayload`. -/
structure SignedCommandPayload where
  common : SignedCommandCommon
  body : SignedCommandBody
deriving DecidableEq

/-- `signed_command::SignedCommand` (the signature is opaque; signature
validity is checked upstream of the embedded functions). -/
structure SignedCommand where
  payload : SignedCommandPayload
  signer : Nat
  signature : Nat
deriving DecidableEq

/-- `SignedCommand::valid_until`. -/
def SignedCommand.valid_until (c : SignedCommand) : Nat :=
  c.payload.common.valid_until

/-- `SignedCommand::fee_payer`. -/
def SignedCommand.fee_payer (c : SignedCommand) : AccountId :=
  ⟨c.payload.common.fee_payer_pk, TokenId.default_id⟩

/-- `SignedCommand::fee_token` (constantly the default token in the
source). -/
def SignedCommand.fee_token (_ : SignedCommand) : Nat := TokenId.default_id

/-- `SignedCommand::fee`. -/
def SignedCommand.fee (c : SignedCommand) : Nat := c.payload.common.fee

/-- `SignedCommand::nonce`. -/
def SignedCommand.nonce (c : SignedCommand) : Nat := c.payload.common.nonce

/-- `SignedCommand::source`. -/
def SignedCommand.source (c : SignedCommand) : AccountId :=
  match c.payload.body with
  | SignedCommandBody.Payment p => ⟨p.source_pk, TokenId.default_id⟩
  | SignedCommandBody.StakeDelegation s => ⟨s.delegator, TokenId.default_id⟩

/-- `SignedCommand::receiver`. -/
def SignedCommand.receiver (c : SignedCommand) : AccountId :=
  match c.payload.body with
  | SignedCommandBody.Payment p => ⟨p.receiver_pk, TokenId.default_id⟩
  | SignedCommandBody.StakeDelegation s => ⟨s.new_delegate, TokenId.default_id⟩

/-- `signed_command_applied::Body`. -/
inductive SignedCommandAppliedBody where
  | Payments (new_accounts : List AccountId) : SignedCommandAppliedBody
  | StakeDelegation (previous_delegate : Option Nat) : SignedCommandAppliedBody
  | Failed : SignedCommandAppliedBody
deriving DecidableEq

/-- `signed_command_applied::Common`. -/
structure SignedCommandAppliedCommon where
  user_command : WithStatus SignedCommand
deriving DecidableEq

/-- `signed_command_applied::SignedCommandApplied`. -/
structure SignedCommandApplied where
  common : SignedCommandAppliedCommon
  body : SignedCommandAppliedBody
deriving DecidableEq

/-- `transaction_logic.rs::CoinbaseFeeTransfer`. -/
structure CoinbaseFeeTransfer where
  receiver_pk : Nat
  fee : Nat
deriving DecidableEq

/-- `CoinbaseFeeTransfer::receiver`. -/
def CoinbaseFeeTransfer.receiver (ft : CoinbaseFeeTransfer) : AccountId :=
  ⟨ft.receiver_pk, TokenId.default_id⟩

/-- `transaction_logic.rs::Coinbase`. -/
structure Coinbase where
  receiver : Nat
  amount : Nat
  fee_transfer : Option CoinbaseFeeTransfer
deriving DecidableEq

/-- `Coinbase::is_valid`: an attached fee transfer must not exceed the
coinbase amount (`Amount::of_fee(fee) <= self.amount`). -/
def Coinbase.is_valid (cb : Coinbase) : Bool :=
  match cb.fee_transfer with
  | none => true
  | some ft => ft.fee ≤ cb.amount

/-- `Coinbase::create`: validates the coinbase, then normalizes away a fee
transfer whose receiver equals the coinbase receiver. -/
def Coinbase.create (amount : Nat) (receiver : Nat)
    (fee_transfer : Option CoinbaseFeeTransfer) : Except String Coinbase :=
  let this : Coinbase := ⟨receiver, amount, fee_transfer⟩
  if this.is_valid then
    let adjusted_fee_transfer := this.fee_transfer.bind (fun ft =>
      if receiver ≠ ft.receiver_pk then some ft else none)
    Except.ok { this with fee_transfer := adjusted_fee_transfer }
  else
    Except.error "Coinbase.create: invalid coinbase"

/-- `scan_state::transaction_snark::OneOrTwo` (the `Two` payload is a pair in
the source). -/
inductive OneOrTwo (α : Type) where
  | One (a : α) : OneOrTwo α
  | Two (a b : α) : OneOrTwo α
deriving DecidableEq

/-- `transaction_logic.rs::SingleFeeTransfer`. -/
structure SingleFeeTransfer where
  receiver_pk : Nat
  fee : Nat
  fee_token : Nat
deriving DecidableEq

/-- `SingleFeeTransfer::receiver`. -/
def SingleFeeTransfer.receiver (ft : SingleFeeTransfer) : AccountId :=
  ⟨ft.receiver_pk, ft.fee_token⟩

/-- `transaction_logic.rs::FeeTransfer` (newtype over
`OneOrTwo<SingleFeeTransfer>`). -/
abbrev FeeTransfer : Type := OneOrTwo SingleFeeTransfer

/-- `FeeTransfer::fee_tokens` as a list. -/
def FeeTransfer.fee_tokens : FeeTransfer → List Nat
  | OneOrTwo.One a => [a.fee_token]
  | OneOrTwo.Two a b => [a.fee_token, b.fee_token]

/-- `transaction_applied::FeeTransferApplied`. -/
structure FeeTransferApplied where
  fee_transfer : WithStatus FeeTransfer
  new_accounts : List AccountId
  burned_tokens : Nat
deriving DecidableEq

/-- `transaction_applied::CoinbaseApplied`. -/
structure CoinbaseApplied where
  coinbase : WithStatus Coinbase
  new_accounts : List AccountId
  burned_tokens : Nat
deriving DecidableEq

/-- `ConstraintConstants`, restricted to the one field the embedded code
reads (`account_creation_fee`). -/
structure ConstraintConstants where
  account_creation_fee : Nat
deriving DecidableEq

/-- `transaction_logic.rs::ExistingOrNew`. -/
inductive ExistingOrNew where
  | Existing (loc : Nat) : ExistingOrNew
  | New : ExistingOrNew
deriving DecidableEq

/-- `transaction_logic.rs::TimingValidation`. -/
inductive TimingValidation where
  | InsufficientBalance (b : Bool) : TimingValidation
  | InvalidTiming (b : Bool) : TimingValidation
deriving DecidableEq

/-- `transaction_logic.rs::account_min_balance_at_slot` (lines 4235-4280),
including the overflow guard that replaces `num_periods * vesting_increment`
by `u64::MAX` when the product would overflow. -/
def account_min_balance_at_slot (global_slot cliff_time cliff_amount
    vesting_period vesting_increment initial_minimum_balance : Nat) : Nat :=
  if global_slot < cliff_time then initial_minimum_balance
  else if vesting_period = 0 then 0
  else
    match sub_amount64 initial_minimum_balance cliff_amount with
    | none => 0
    | some min_balance_past_cliff =>
      let num_periods := (global_slot - cliff_time) / vesting_period
      let vesting_decrement :=
        if num_periods ≠ 0 ∧ U64_MAX / num_periods < vesting_increment then
          U64_MAX
        else
          num_periods * vesting_increment
      match sub_amount64 min_balance_past_cliff vesting_decrement with
      | none => 0
      | some amount => amount

/-- `transaction_logic.rs::validate_timing_with_min_balance_impl`; returns
the validation verdict, the (possibly untimed-ized) timing and the computed
minimum balance. -/
def validate_timing_with_min_balance_impl (account : Account)
    (txn_amount : Nat) (txn_global_slot : Nat) :
    TimingValidation × Timing × Nat :=
  match account.timing with
  | Timing.Untimed =>
    match sub_amount64 account.balance txn_amount with
    | none => (TimingValidation.InsufficientBalance true, Timing.Untimed, 0)
    | some _ => (TimingValidation.InvalidTiming false, Timing.Untimed, 0)
  | Timing.Timed initial_minimum_balance cliff_time cliff_amount
      vesting_period vesting_increment =>
    let p :=
      match sub_amount64 account.balance txn_amount with
      | none => (true, false, initial_minimum_balance)
      | some proposed_new_balance =>
        let curr_min_balance := account_min_balance_at_slot txn_global_slot
          cliff_time cliff_amount vesting_period vesting_increment
          initial_minimum_balance
        if proposed_new_balance < curr_min_balance then
          (false, true, curr_min_balance)
        else
          (false, false, curr_min_balance)
    let invalid_balance := p.1
    let invalid_timing := p.2.1
    let curr_min_balance := p.2.2
    let possibly_error :=
      if invalid_balance then TimingValidation.InsufficientBalance invalid_balance
      else TimingValidation.InvalidTiming invalid_timing
    if 0 < curr_min_balance then
      (possibly_error, account.timing, curr_min_balance)
    else
      (possibly_error, Timing.Untimed, 0)

/-- `transaction_logic.rs::validate_timing_with_min_balance`: maps the
verdict to `Ok` or an error string; the error strings reproduce the
substrings (`is insufficient` / `minimum balance`) that
`timing_error_to_user_command_status` later matches on.  The
`InsufficientBalance false` case panics in the source (broken invariant)
and is modelled as a distinct error. -/
def validate_timing_with_min_balance (account : Account) (txn_amount : Nat)
    (txn_global_slot : Nat) : Except String (Timing × Nat) :=
  let bal := account.balance
  match validate_timing_with_min_balance_impl account txn_amount txn_global_slot with
  | (TimingValidation.InsufficientBalance true, _, _) =>
    Except.error (s!"For timed account, the requested transaction for amount {txn_amount} at global slot {txn_global_slot}, the balance {bal} is insufficient")
  | (TimingValidation.InvalidTiming true, _, min_balance) =>
    Except.error (s!"For timed account, the requested transaction for amount {txn_amount} at global slot {txn_global_slot}, applying the transaction would put the balance below the calculated minimum balance of {min_balance}")
  | (TimingValidation.InsufficientBalance false, _, _) =>
    Except.error "Broken invariant in validate_timing_with_min_balance"
  | (TimingValidation.InvalidTiming false, timing, min_balance) =>
    Except.ok (timing, min_balance)

/-- `transaction_logic.rs::validate_timing`. -/
def validate_timing (account : Account) (txn_amount : Nat)
    (txn_global_slot : Nat) : Except String Timing :=
  Except.map (fun p => p.1)
    (validate_timing_with_min_balance account txn_amount txn_global_slot)

/-- `transaction_logic.rs::update_timing_when_no_deduction`. -/
def update_timing_when_no_deduction (txn_global_slot : Nat)
    (account : Account) : Except String Timing :=
  validate_timing account 0 txn_global_slot

/-- Helper for `string_contains`: `pat` occurs as a contiguous run in `s`. -/
def char_list_contains (s pat : List Char) : Bool :=
  match s with
  | [] => pat.isEmpty
  | _ :: rest => pat.isPrefixOf s || char_list_contains rest pat

/-- Substring test used to embed the source's `err_str.contains(..)`. -/
def string_contains (s pat : String) : Bool :=
  char_list_contains s.data pat.data

/-- `transaction_logic.rs::timing_error_to_user_command_status`: matches over
the error string.  The fall-through case panics in the source (unreachable,
as `validate_timing` only produces the two matched messages) and is modelled
as `Predicate`. -/
def timing_error_to_user_command_status (timing_result : Except String Timing) :
    Except TransactionFailure Timing :=
  match timing_result with
  | Except.ok timing => Except.ok timing
  | Except.error err_str =>
    if string_contains err_str ("minimum balance") then
      Except.error TransactionFailure.SourceMinimumBalanceViolation
    else if string_contains err_str ("is insufficient") then
      Except.error TransactionFailure.SourceInsufficientBalance
    else
      Except.error TransactionFailure.Predicate

/-- `transaction_logic.rs::sub_amount` (fatal variant). -/
def sub_amount (balance amount : Nat) : Except String Nat :=
  match sub_amount64 balance amount with
  | some b => Except.ok b
  | none => Except.error "insufficient funds"

/-- `transaction_logic.rs::add_amount` (fatal variant). -/
def add_amount (balance amount : Nat) : Except String Nat :=
  match add_amount64 balance amount with
  | some b => Except.ok b
  | none => Except.error "overflow"

/-- `transaction_logic.rs::sub_account_creation_fee`. -/
def sub_account_creation_fee (constraint_constants : ConstraintConstants)
    (action : AccountState) (amount : Nat) : Except String Nat :=
  let fee := constraint_constants.account_creation_fee
  match action with
  | AccountState.Added =>
    match sub_amount64 amount fee with
    | some amount2 => Except.ok amount2
    | none =>
      Except.error (s!"Error subtracting account creation fee {fee}; transaction amount {amount} insufficient")
  | AccountState.Existed => Except.ok amount

/-- `transaction_logic.rs::get_new_accounts`. -/
def get_new_accounts {α : Type} (action : AccountState) (data : α) : Option α :=
  match action with
  | AccountState.Added => some data
  | AccountState.Existed => none

/-- `transaction_logic.rs::has_permission_to_receive`: looks the receiver up;
a missing account is replaced by the initialized default (whose default
permissions allow receiving) and reported `Added`.  The
`Some location / get = None` case panics in the source ("Ledger location
with no account") and cannot arise in this ledger model; it is mapped to the
initialized account. -/
def has_permission_to_receive (l : Ledger) (receiver_account_id : AccountId) :
    Account × AccountState × Bool :=
  let init_account := account_init receiver_account_id
  match l.location_of_account receiver_account_id with
  | none =>
    (init_account, AccountState.Added,
      init_account.has_permission_to PermissionTo.Receive)
  | some location =>
    match l.get location with
    | none => (init_account, AccountState.Added, false)
    | some receiver_account =>
      (receiver_account, AccountState.Existed,
        receiver_account.has_permission_to PermissionTo.Receive)

/-- `transaction_logic.rs::validate_time` (lines 3521-3530): accepts exactly
when `current_global_slot <= valid_until`. -/
def validate_time (valid_until : Nat) (current_global_slot : Nat) :
    Except String Unit :=
  if current_global_slot ≤ valid_until then Except.ok ()
  else
    Except.error (s!"Current global slot {current_global_slot} greater than transaction expiry slot {valid_until}")

/-- `transaction_logic.rs::validate_nonces`. -/
def validate_nonces (txn_nonce account_nonce : Nat) : Except String Unit :=
  if account_nonce = txn_nonce then Except.ok ()
  else
    Except.error (s!"Nonce in account {account_nonce} different from nonce in transaction {txn_nonce}")

/-- `transaction_logic.rs::get_with_location`: an existing account with its
location, or a fresh zero-balance account tagged `New`. -/
def get_with_location (l : Ledger) (account_id : AccountId) :
    ExistingOrNew × Account :=
  match l.location_of_account account_id with
  | some location =>
    (ExistingOrNew.Existing location,
      (l.get location).getD (Account.create_with account_id 0))
  | none => (ExistingOrNew.New, Account.create_with account_id 0)

/-- `transaction_logic.rs::set_with_location`. -/
def set_with_location (l : Ledger) (location : ExistingOrNew)
    (account : Account) : Except String Ledger :=
  match location with
  | ExistingOrNew.Existing loc => Except.ok (l.set loc account)
  | ExistingOrNew.New =>
    match l.create_new_account account.id account with
    | Except.ok l2 => Except.ok l2
    | Except.error _ => Except.error "set_with_location"

/-- `transaction_logic.rs::pay_fee_impl` (lines 3813-3854): locates the fee
payer (which must exist), deducts the fee, checks the nonce, validates
timing, then returns the account with balance deducted, nonce incremented,
receipt chain hash extended with the command payload and timing updated.
The receipt-chain extension (`cons_signed_command_payload`) calls the
external `mina_hasher` Poseidon primitive, which the spec scopes out as a
black box; it is threaded through as the function argument `cons`. -/
def pay_fee_impl (cons : SignedCommandPayload → Nat → Nat)
    (command : SignedCommandPayload) (nonce : Nat) (fee_payer : AccountId)
    (fee : Nat) (l : Ledger) (current_global_slot : Nat) :
    Except String (ExistingOrNew × Account) :=
  let p := get_with_location l fee_payer
  let location := p.1
  let account := p.2
  if location = ExistingOrNew.New then
    Except.error "The fee-payer account does not exist"
  else
    match sub_amount account.balance fee with
    | Except.error e => Except.error e
    | Except.ok balance =>
      match validate_nonces nonce account.nonce with
      | Except.error e => Except.error e
      | Except.ok _ =>
        match validate_timing account fee current_global_slot with
        | Except.error e => Except.error e
        | Except.ok timing =>
          Except.ok (location,
            { account with
              balance := balance
              nonce := nonce_incr account.nonce
              receipt_chain_hash := cons command account.receipt_chain_hash
              timing := timing })

/-- `transaction_logic.rs::pay_fee` (lines 3782-3811): checks the signer is
the fee payer and the fee token is the default, then calls `pay_fee_impl`. -/
def pay_fee (cons : SignedCommandPayload → Nat → Nat)
    (user_command : SignedCommand) (signer_pk : Nat) (l : Ledger)
    (current_global_slot : Nat) : Except String (ExistingOrNew × Account) :=
  let nonce := user_command.nonce
  let fee_payer := user_command.fee_payer
  let fee_token := user_command.fee_token
  if fee_payer.public_key ≠ signer_pk then
    Except.error "Cannot pay fees from a public key that did not sign the transaction"
  else if fee_token ≠ TokenId.default_id then
    Except.error "Cannot create transactions with fee_token different from the default"
  else
    pay_fee_impl cons user_command.payload nonce fee_payer user_command.fee l
      current_global_slot

/-- `transaction_logic.rs::Updates`. -/
structure Updates where
  located_accounts : List (ExistingOrNew × Account)
  applied_body : SignedCommandAppliedBody
deriving DecidableEq

/-- `transaction_logic.rs::compute_updates` (lines 3560-3689): computes the
per-body updates of a signed command, or the single `TransactionFailure`
that makes the command `Failed`.  In the payment branch with
`source == receiver` the source account is a clone of the receiver account
with only the timing updated (no balance deduction), and it is listed
after the credited receiver account in `located_accounts`. -/
def compute_updates (constraint_constants : ConstraintConstants)
    (source receiver : AccountId) (l : Ledger) (current_global_slot : Nat)
    (user_command : SignedCommand) : Except TransactionFailure Updates :=
  match user_command.payload.body with
  | SignedCommandBody.StakeDelegation _ =>
    let ps := get_with_location l source
    let source_location := ps.1
    let source_account := ps.2
    if ¬ (source_account.has_permission_to PermissionTo.SetDelegate) then
      Except.error TransactionFailure.UpdateNotPermittedDelegate
    else if source_location = ExistingOrNew.New then
      Except.error TransactionFailure.SourceNotPresent
    else
      let pr := get_with_location l receiver
      if pr.1 = ExistingOrNew.New then
        Except.error TransactionFailure.ReceiverNotPresent
      else
        let previous_delegate := source_account.delegate
        match timing_error_to_user_command_status
            (validate_timing source_account 0 current_global_slot) with
        | Except.error f => Except.error f
        | Except.ok timing =>
          Except.ok
            ⟨[(source_location,
                { source_account with
                  delegate := some receiver.public_key
                  timing := timing })],
              SignedCommandAppliedBody.StakeDelegation previous_delegate⟩
  | SignedCommandBody.Payment payment =>
    let pr := get_with_location l receiver
    let receiver_location := pr.1
    let receiver_account := pr.2
    if ¬ (receiver_account.has_permission_to PermissionTo.Receive) then
      Except.error TransactionFailure.UpdateNotPermittedBalance
    else
      let step : Except TransactionFailure (ExistingOrNew × Account × Account) :=
        if source = receiver then
          match receiver_location with
          | ExistingOrNew.New => Except.error TransactionFailure.SourceNotPresent
          | ExistingOrNew.Existing addr =>
            match timing_error_to_user_command_status
                (validate_timing receiver_account payment.amount
                  current_global_slot) with
            | Except.error f => Except.error f
            | Except.ok timing =>
              let receiver_account2 := { receiver_account with timing := timing }
              Except.ok (ExistingOrNew.Existing addr, receiver_account2,
                receiver_account2)
        else
          let psrc := get_with_location l source
          let location := psrc.1
          let account := psrc.2
          if location = ExistingOrNew.New then
            Except.error TransactionFailure.SourceNotPresent
          else
            match timing_error_to_user_command_status
                (validate_timing account payment.amount current_global_slot) with
            | Except.error f => Except.error f
            | Except.ok timing =>
              match sub_amount64 account.balance payment.amount with
              | none => Except.error TransactionFailure.SourceInsufficientBalance
              | some balance =>
                Except.ok (location,
                  { account with timing := timing, balance := balance },
                  receiver_account)
      match step with
      | Except.error f => Except.error f
      | Except.ok (source_location, source_account, receiver_account2) =>
        if ¬ (source_account.has_permission_to PermissionTo.Send) then
          Except.error TransactionFailure.UpdateNotPermittedBalance
        else
          let receiver_amount_r : Except TransactionFailure Nat :=
            match receiver_location with
            | ExistingOrNew.Existing _ => Except.ok payment.amount
            | ExistingOrNew.New =>
              match sub_amount64 payment.amount
                  constraint_constants.account_creation_fee with
              | some amount => Except.ok amount
              | none =>
                Except.error TransactionFailure.AmountInsufficientToCreateAccount
          match receiver_amount_r with
          | Except.error f => Except.error f
          | Except.ok receiver_amount =>
            match add_amount64 receiver_account2.balance receiver_amount with
            | none => Except.error TransactionFailure.Overflow
            | some balance =>
              let new_accounts : List AccountId :=
                match receiver_location with
                | ExistingOrNew.New => [receiver]
                | ExistingOrNew.Existing _ => []
              Except.ok
                ⟨[(receiver_location,
                    { receiver_account2 with balance := balance }),
                  (source_location, source_account)],
                  SignedCommandAppliedBody.Payments new_accounts⟩

/-- `transaction_logic.rs::apply_user_command_unchecked` (lines 3691-3761):
validates the expiry slot, pays the fee (fatal on failure), checks the fee
payer's `Send` permission (fatal), writes the updated fee payer, then
either applies the computed updates (status `Applied`) or returns status
`Failed [[failure]]` with body `Failed`, keeping the fee-payer write. -/
def apply_user_command_unchecked (cons : SignedCommandPayload → Nat → Nat)
    (constraint_constants : ConstraintConstants) (txn_global_slot : Nat)
    (l : Ledger) (user_command : SignedCommand) :
    Except String (SignedCommandApplied × Ledger) :=
  let signer_pk := user_command.signer
  let current_global_slot := txn_global_slot
  match validate_time user_command.valid_until current_global_slot with
  | Except.error e => Except.error e
  | Except.ok _ =>
    match pay_fee cons user_command signer_pk l current_global_slot with
    | Except.error e => Except.error e
    | Except.ok (fee_payer_location, fee_payer_account) =>
      if ¬ (fee_payer_account.has_permission_to PermissionTo.Send) then
        Except.error (TransactionFailure.UpdateNotPermittedBalance.to_display)
      else
        match set_with_location l fee_payer_location fee_payer_account with
        | Except.error e => Except.error e
        | Except.ok l1 =>
          let source := user_command.source
          let receiver := user_command.receiver
          match compute_updates constraint_constants source receiver l1
              current_global_slot user_command with
          | Except.ok updates =>
            match List.foldlM
                (fun (acc : Ledger) (p : ExistingOrNew × Account) =>
                  set_with_location acc p.1 p.2)
                l1 updates.located_accounts with
            | Except.error e => Except.error e
            | Except.ok l2 =>
              Except.ok
                (⟨⟨⟨user_command, TransactionStatus.Applied⟩⟩,
                  updates.applied_body⟩, l2)
          | Except.error failure =>
            Except.ok
              (⟨⟨⟨user_command, TransactionStatus.Failed [[failure]]⟩⟩,
                SignedCommandAppliedBody.Failed⟩, l1)

/-- `transaction_logic.rs::apply_user_command` (delegates to
`apply_user_command_unchecked`). -/
def apply_user_command (cons : SignedCommandPayload → Nat → Nat)
    (constraint_constants : ConstraintConstants) (txn_global_slot : Nat)
    (l : Ledger) (user_command : SignedCommand) :
    Except String (SignedCommandApplied × Ledger) :=
  apply_user_command_unchecked cons constraint_constants txn_global_slot l
    user_command

/-- `transaction_logic.rs::process_fee_transfer` (lines 3342-3481): rejects
non-default fee tokens; credits one or two receivers (checking the
`Receive` permission through `has_permission_to_receive`), burning the fee
of any single whose receiver cannot receive.  When the two singles target
the same account id, the fees are summed and credited in one update. -/
def process_fee_transfer (l : Ledger) (fee_transfer : FeeTransfer)
    (modify_balance : AccountState → AccountId → Nat → Nat → Except String Nat)
    (modify_timing : Account → Except String Timing) :
    Except String (List AccountId × List (List TransactionFailure) × Nat × Ledger) :=
  if ¬ (fee_transfer.fee_tokens.all (fun t => t = TokenId.default_id)) then
    Except.error "Cannot pay fees in non-default tokens."
  else
    match fee_transfer with
    | OneOrTwo.One ft =>
      let account_id := ft.receiver
      let q := has_permission_to_receive l account_id
      let a := q.1
      let action := q.2.1
      let can_receive := q.2.2
      match modify_timing a with
      | Except.error e => Except.error e
      | Except.ok timing =>
        match modify_balance action account_id a.balance ft.fee with
        | Except.error e => Except.error e
        | Except.ok balance =>
          if can_receive then
            let g := l.get_or_create account_id
            let account := g.2.1
            let loc := g.2.2.1
            let l2 := g.2.2.2
            let new_accounts := get_new_accounts action account_id
            Except.ok (new_accounts.toList, [],
              0, l2.set loc { account with balance := balance, timing := timing })
          else
            Except.ok ([], single_failure, ft.fee, l)
    | OneOrTwo.Two ft1 ft2 =>
      let account_id1 := ft1.receiver
      let q1 := has_permission_to_receive l account_id1
      let a1 := q1.1
      let action1 := q1.2.1
      let can_receive1 := q1.2.2
      let account_id2 := ft2.receiver
      if account_id1 = account_id2 then
        match add_amount64 ft1.fee ft2.fee with
        | none => Except.error "Overflow"
        | some fee =>
          match modify_timing a1 with
          | Except.error e => Except.error e
          | Except.ok timing =>
            match modify_balance action1 account_id1 a1.balance fee with
            | Except.error e => Except.error e
            | Except.ok balance =>
              if can_receive1 then
                let g := l.get_or_create account_id1
                let account := g.2.1
                let loc := g.2.2.1
                let l2 := g.2.2.2
                let new_accounts1 := get_new_accounts action1 account_id1
                Except.ok (new_accounts1.toList, [[], []], 0,
                  l2.set loc { account with balance := balance, timing := timing })
              else
                Except.ok ([],
                  [[TransactionFailure.UpdateNotPermittedBalance],
                   [TransactionFailure.UpdateNotPermittedBalance]],
                  fee, l)
      else
        let q2 := has_permission_to_receive l account_id2
        let a2 := q2.1
        let action2 := q2.2.1
        let can_receive2 := q2.2.2
        match modify_balance action1 account_id1 a1.balance ft1.fee with
        | Except.error e => Except.error e
        | Except.ok balance1 =>
          match modify_timing a2 with
          | Except.error e => Except.error e
          | Except.ok timing2 =>
            match modify_balance action2 account_id2 a2.balance ft2.fee with
            | Except.error e => Except.error e
            | Except.ok balance2 =>
              let r1 : Option AccountId × List TransactionFailure × Nat × Ledger :=
                if can_receive1 then
                  let g1 := l.get_or_create account_id1
                  let account1 := g1.2.1
                  let loc1 := g1.2.2.1
                  let l2 := g1.2.2.2
                  (get_new_accounts action1 account_id1, [], 0,
                    l2.set loc1 { account1 with balance := balance1 })
                else
                  (none, [TransactionFailure.UpdateNotPermittedBalance],
                    ft1.fee, l)
              let new_accounts1 := r1.1
              let failures1 := r1.2.1
              let burned_tokens1 := r1.2.2.1
              let la := r1.2.2.2
              let r2 : Option AccountId × List TransactionFailure × Nat × Ledger :=
                if can_receive2 then
                  let g2 := la.get_or_create account_id2
                  let account2 := g2.2.1
                  let loc2 := g2.2.2.1
                  let l3 := g2.2.2.2
                  (get_new_accounts action2 account_id2, [], 0,
                    l3.set loc2 { account2 with balance := balance2, timing := timing2 })
                else
                  (none, [TransactionFailure.UpdateNotPermittedBalance],
                    ft2.fee, la)
              let new_accounts2 := r2.1
              let failures2 := r2.2.1
              let burned_tokens2 := r2.2.2.1
              let lb := r2.2.2.2
              match add_amount64 burned_tokens1 burned_tokens2 with
              | none => Except.error "burned tokens overflow"
              | some burned_tokens =>
                Except.ok (new_accounts1.toList ++ new_accounts2.toList,
                  [failures1, failures2], burned_tokens, lb)

/-- `transaction_logic.rs::apply_fee_transfer` (lines 3231-3267): drives
`process_fee_transfer` with the balance modification that deducts the
account-creation fee for `Added` receivers, and computes `Applied` or
`Failed` from the failure buckets. -/
def apply_fee_transfer (constraint_constants : ConstraintConstants)
    (txn_global_slot : Nat) (l : Ledger) (fee_transfer : FeeTransfer) :
    Except String (FeeTransferApplied × Ledger) :=
  match process_fee_transfer l fee_transfer
      (fun action _ balance fee =>
        match sub_account_creation_fee constraint_constants action fee with
        | Except.error e => Except.error e
        | Except.ok amount => add_amount balance amount)
      (fun account => update_timing_when_no_deduction txn_global_slot account) with
  | Except.error e => Except.error e
  | Except.ok (new_accounts, failures, burned_tokens, l2) =>
    let status :=
      if failures.all List.isEmpty then TransactionStatus.Applied
      else TransactionStatus.Failed failures
    Except.ok (⟨⟨fee_transfer, status⟩, new_accounts, burned_tokens⟩, l2)

/-- `transaction_logic.rs::apply_coinbase` (lines 3083-3228): processes the
optional attached fee transfer first (burning its fee on a `Receive`
permission failure, and deferring the transferee write), then credits the
coinbase receiver with `amount - fee` (burning that reward on a permission
failure), finally writes the deferred transferee update.  The failure
status always has one bucket per party when a fee transfer is attached:
`[[failure-of-fee-transfer]; [failure-of-coinbase]]` with empty buckets for
the successful parties.  The `assert_ne!(transferee, receiver)` panic of
the source is modelled as a fatal error. -/
def apply_coinbase (constraint_constants : ConstraintConstants)
    (txn_global_slot : Nat) (l : Ledger) (coinbase : Coinbase) :
    Except String (CoinbaseApplied × Ledger) :=
  let phase1 : Except String
      (Nat × Option AccountId × Option (Nat × Account) × Option Timing ×
        List TransactionFailure × Nat × Ledger) :=
    match coinbase.fee_transfer with
    | none => Except.ok (coinbase.amount, none, none, none, [], 0, l)
    | some ft =>
      if ft.receiver_pk = coinbase.receiver then
        Except.error "assert_ne failed: transferee equals coinbase receiver"
      else
        let transferee_id := ft.receiver
        let fee := ft.fee
        match sub_amount64 coinbase.amount fee with
        | none => Except.error "Coinbase fee transfer too large"
        | some receiver_reward =>
          let q := has_permission_to_receive l transferee_id
          let transferee_account := q.1
          let action := q.2.1
          let can_receive := q.2.2
          let new_accounts := get_new_accounts action transferee_id
          match update_timing_when_no_deduction txn_global_slot
              transferee_account with
          | Except.error e => Except.error e
          | Except.ok timing =>
            match sub_account_creation_fee constraint_constants action fee with
            | Except.error e => Except.error e
            | Except.ok amount =>
              match add_amount transferee_account.balance amount with
              | Except.error e => Except.error e
              | Except.ok balance =>
                if can_receive then
                  let g := l.get_or_create transferee_id
                  let ta := g.2.1
                  let tloc := g.2.2.1
                  let l2 := g.2.2.2
                  let ta2 := { ta with balance := balance, timing := timing }
                  Except.ok (receiver_reward, new_accounts, some (tloc, ta2),
                    some ta2.timing, [], 0, l2)
                else
                  Except.ok (receiver_reward, none, none, none,
                    [TransactionFailure.UpdateNotPermittedBalance], fee, l)
  match phase1 with
  | Except.error e => Except.error e
  | Except.ok (receiver_reward, new_accounts1, transferee_update,
      transferee_timing_prev, failures1, burned_tokens1, l2) =>
    let receiver_id : AccountId := ⟨coinbase.receiver, TokenId.default_id⟩
    let q2 := has_permission_to_receive l2 receiver_id
    let receiver_account := q2.1
    let action2 := q2.2.1
    let can_receive2 := q2.2.2
    let new_accounts2 := get_new_accounts action2 receiver_id
    let timing_r : Except String Timing :=
      match transferee_timing_prev with
      | none => update_timing_when_no_deduction txn_global_slot receiver_account
      | some _ => Except.ok receiver_account.timing
    match timing_r with
    | Except.error e => Except.error e
    | Except.ok coinbase_receiver_timing =>
      match sub_account_creation_fee constraint_constants action2
          receiver_reward with
      | Except.error e => Except.error e
      | Except.ok amount2 =>
        match add_amount receiver_account.balance amount2 with
        | Except.error e => Except.error e
        | Except.ok receiver_balance =>
          let r2 : List TransactionFailure × Nat × Ledger :=
            if can_receive2 then
              let g2 := l2.get_or_create receiver_id
              let ra := g2.2.1
              let rloc := g2.2.2.1
              let l2b := g2.2.2.2
              ([], 0, l2b.set rloc
                { ra with
                  balance := receiver_balance
                  timing := coinbase_receiver_timing })
            else
              ([TransactionFailure.UpdateNotPermittedBalance],
                receiver_reward, l2)
          let failures2 := r2.1
          let burned_tokens2 := r2.2.1
          let l3 := r2.2.2
          let l4 :=
            match transferee_update with
            | some (addr, account) => l3.set addr account
            | none => l3
          match add_amount64 burned_tokens1 burned_tokens2 with
          | none => Except.error "burned tokens overflow"
          | some burned_tokens =>
            let failures := [failures1, failures2]
            let status :=
              if failures.all List.isEmpty then TransactionStatus.Applied
              else TransactionStatus.Failed failures
            Except.ok
              (⟨⟨coinbase, status⟩,
                new_accounts1.toList ++ new_accounts2.toList, burned_tokens⟩,
                l4)

/-- Modelled from the spec: a `LedgerAddress` is a path from the Merkle root
(a bit per level); `to_index` is the integer index of the path at its own
depth. -/
def LedgerAddress : Type := List Bool

/-- Modelled from the spec: `LedgerAddress::to_index`. -/
def ledger_address_to_index (a : List Bool) : Nat :=
  a.foldl (fun acc b => 2 * acc + (if b then 1 else 0)) 0

/-- Modelled from the spec: per-(address, peer) RPC attempt state
`Init | Pending{rpc_id} | Error | Success`. -/
inductive PeerRpcState where
  | Init : PeerRpcState
  | Pending (rpc_id : Nat) : PeerRpcState
  | Error : PeerRpcState
  | Success : PeerRpcState
deriving DecidableEq

/-- Modelled from the spec: `QueryState` of a pending snarked-ledger address:
the per-peer attempts map. -/
structure QueryState where
  attempts : List (Nat × PeerRpcState)
deriving DecidableEq

/-- Modelled from the spec: the part of a ready peer's state read by the
enabling conditions: its announced best-tip hash, and whether its RPC
channel can accept a send (`p.channels.rpc.can_send_request()`). -/
structure Peer where
  best_tip : Option Nat
  rpc_can_send : Bool
deriving DecidableEq

/-- Modelled from the spec: the root-ledger sync sub-state
(`TransitionFrontierSyncLedgerState`); `SnarkedPending` carries the pending
query-state map, the BFS cursor `next_addr` and the retry queue. -/
inductive SyncLedgerState where
  | Init : SyncLedgerState
  | SnarkedPending (pending : List (List Bool × QueryState))
      (next_addr : Option (List Bool))
      (retry_queue : List (List Bool)) : SyncLedgerState
  | SnarkedSuccess : SyncLedgerState
  | StagedReconstructPending : SyncLedgerState
  | StagedReconstructSuccess : SyncLedgerState
deriving DecidableEq

/-- Modelled from the spec: the slice of the global state read by the
snarked peer-query enabling conditions: the ready-peers map
(`state.p2p`), the root-ledger sync sub-state
(`state.transition_frontier.sync.root_ledger()`), and the sync target's
best-tip hash (`state.transition_frontier.sync.best_tip()`). -/
structure SyncGlobalState where
  ready_peers : List (Nat × Peer)
  root_ledger : Option SyncLedgerState
  sync_best_tip : Option Nat
deriving DecidableEq

/-- `state.p2p.get_ready_peer(peer_id)`. -/
def SyncGlobalState.get_ready_peer (st : SyncGlobalState) (peer_id : Nat) :
    Option Peer :=
  (st.ready_peers.find? (fun p => p.1 = peer_id)).map (fun p => p.2)

/-- Modelled from the spec: `snarked_ledger_sync_retry_iter().next()` — the
head of the retry queue of a `SnarkedPending` root ledger. -/
def sync_ledger_retry_next : SyncLedgerState → Option (List Bool)
  | SyncLedgerState.SnarkedPending _ _ retry_queue => retry_queue.head?
  | _ => none

/-- The peer-availability conjunct shared by
`TransitionFrontierSyncLedgerSnarkedPeerQueryInitAction::is_enabled` and
`...RetryAction::is_enabled` (lines 124-132 and 154-162): the peer is
ready, the sync target exists, the peer announces a best tip, the two
hashes coincide, and the peer's RPC channel can accept a send. -/
def check_peer_available (st : SyncGlobalState) (peer_id : Nat) : Bool :=
  match st.get_ready_peer peer_id with
  | none => false
  | some p =>
    match st.sync_best_tip, p.best_tip with
    | some sync_best_tip, some peer_best_tip =>
      sync_best_tip = peer_best_tip && p.rpc_can_send
    | _, _ => false

/-- `TransitionFrontierSyncLedgerSnarkedPeerQueryInitAction::is_enabled`
(lines 103-135). -/
def snarked_peer_query_init_is_enabled (st : SyncGlobalState)
    (address : List Bool) (peer_id : Nat) : Bool :=
  let check_next_addr :=
    match st.root_ledger with
    | some (SyncLedgerState.SnarkedPending pending next_addr _) =>
      match next_addr with
      | some next_addr =>
        next_addr = address &&
          (ledger_address_to_index next_addr ≠ 0 || pending.isEmpty)
      | none => false
    | _ => false
  check_next_addr && check_peer_available st peer_id

/-- `TransitionFrontierSyncLedgerSnarkedPeerQueryRetryAction::is_enabled`
(lines 143-165). -/
def snarked_peer_query_retry_is_enabled (st : SyncGlobalState)
    (address : List Bool) (peer_id : Nat) : Bool :=
  let check_next_addr :=
    match st.root_ledger.bind sync_ledger_retry_next with
    | some addr => addr = address
    | none => false
  check_next_addr && check_peer_available st peer_id

/-- Whether some pending snarked-ledger query already has an in-flight
(`Pending`) attempt by the given peer — the "no in-flight request of the
same kind already targets this peer" eligibility condition of the spec. -/
def peer_has_inflight_query (st : SyncGlobalState) (peer_id : Nat) : Bool :=
  match st.root_ledger with
  | some (SyncLedgerState.SnarkedPending pending _ _) =>
    pending.any (fun aq =>
      aq.2.attempts.any (fun at2 =>
        at2.1 = peer_id &&
          (match at2.2 with
           | PeerRpcState.Pending _ => true
           | _ => false)))
  | _ => false

/-- Whether the peer's RPC channel can accept a send. -/
def peer_can_send (st : SyncGlobalState) (peer_id : Nat) : Bool :=
  match st.get_ready_peer peer_id with
  | none => false
  | some p => p.rpc_can_send

/-- Modelled from the spec: the capacity-1 tokio mpsc channels of the
external snark-worker facade, reduced to their observable try-send state:
the capacity and the number of queued, not yet consumed, messages.
`try_send` succeeds exactly when the queue is below capacity. -/
structure BoundedChannel where
  capacity : Nat
  queued : Nat
deriving DecidableEq

/-- Modelled from the spec: `tokio::sync::mpsc::Sender::try_send` on a
live channel: enqueue if below capacity, fail if full. -/
def BoundedChannel.try_send (c : BoundedChannel) : Option BoundedChannel :=
  if c.queued < c.capacity then some { c with queued := c.queued + 1 }
  else none

/-- `ext_snark_worker.rs::SnarkerError` (the variants reachable from
`submit` / `cancel`). -/
inductive SnarkerError where
  | Busy : SnarkerError
  | Broken (msg : String) : SnarkerError
  | NotRunning : SnarkerError
deriving DecidableEq

/-- `ext_snark_worker.rs::ExternalSnarkWorkerFacade`, reduced to the two
try-send channels used by `submit` and `cancel` (the kill channel is a
one-shot consumed by `kill`). -/
structure ExternalSnarkWorkerFacade where
  data_chan : BoundedChannel
  cancel_chan : BoundedChannel
deriving DecidableEq

/-- `ExternalSnarkWorkerFacade::start` (lines 197-198) creates the data and
cancel channels with `mpsc::channel(1)`. -/
def facade_start : ExternalSnarkWorkerFacade :=
  ⟨⟨1, 0⟩, ⟨1, 0⟩⟩

/-- `ExternalSnarkWorkerFacade::submit` (lines 344-348):
`try_send` on the data channel, any failure mapped to `Busy`. -/
def ExternalSnarkWorkerFacade.submit (f : ExternalSnarkWorkerFacade) :
    Except SnarkerError ExternalSnarkWorkerFacade :=
  match f.data_chan.try_send with
  | some c => Except.ok { f with data_chan := c }
  | none => Except.error SnarkerError.Busy

/-- `ExternalSnarkWorkerFacade::cancel` (lines 338-342):
`try_send` on the cancel channel, any failure mapped to
`Broken("already cancelled")`. -/
def ExternalSnarkWorkerFacade.cancel (f : ExternalSnarkWorkerFacade) :
    Except SnarkerError ExternalSnarkWorkerFacade :=
  match f.cancel_chan.try_send with
  | some c => Except.ok { f with cancel_chan := c }
  | none => Except.error (SnarkerError.Broken "already cancelled")

/-- Scenario account: an untimed default-token account with all
signed-command permissions allowed. -/
def open_account (pk balance : Nat) : Account :=
  ⟨pk, TokenId.default_id, balance, 0, 0, none, Timing.Untimed,
    ⟨true, true, true⟩⟩

/-- Scenario account: an untimed default-token account whose permissions
deny `Receive`. -/
def no_receive_account (pk balance : Nat) : Account :=
  ⟨pk, TokenId.default_id, balance, 0, 0, none, Timing.Untimed,
    ⟨true, false, true⟩⟩

/-- A concrete sync state used to probe the peer-query enabling conditions:
the root ledger is `SnarkedPending` with one pending address `[false]`
whose attempts map records an in-flight (`Pending`) request by peer `7`,
the BFS cursor points at address `[true]` (leaf index 1), the sync target's
best tip is hash `99`, and peer `7` is ready, announces best tip `99` and
can send. -/
def probe_sync_state : SyncGlobalState :=
  { ready_peers := [(7, ⟨some 99, true⟩)]
    root_ledger := some
      (SyncLedgerState.SnarkedPending
        [([false], ⟨[(7, PeerRpcState.Pending 0)]⟩)]
        (some [true])
        [])
    sync_best_tip := some 99 }

deriving instance DecidableEq for Except

/-- Observer: whether an `Except` value is a fatal `Err`. -/
def except_is_error {ε α : Type} : Except ε α → Bool
  | Except.error _ => true
  | Except.ok _ => false

/-- Claim C7: for every timed account evaluated at a global slot equal to
`cliff_time` with `vesting_period = 0`, `account_min_balance_at_slot`
returns zero for all values of `cliff_amount`, `vesting_increment` and
`initial_minimum_balance`: all funds are unlocked at the cliff. -/
theorem min_balance_zero_at_cliff_with_zero_period
    (cliff_time cliff_amount vesting_increment initial_minimum_balance : Nat) :
    account_min_balance_at_slot cliff_time cliff_time cliff_amount 0
      vesting_increment initial_minimum_balance = 0 := by
  simp [account_min_balance_at_slot]

/-- Claim C3: constructing a coinbase through `Coinbase::create` with an
attached fee transfer whose receiver equals the coinbase receiver and whose
fee is at most the amount succeeds and normalizes the fee transfer away
(`fee_transfer = None`), so transaction application never sees a coinbase
whose fee-transfer receiver equals its own receiver. -/
theorem coinbase_create_normalizes_self_transfer
    (amount receiver : Nat) (ft : CoinbaseFeeTransfer)
    (hpk : ft.receiver_pk = receiver) (hfee : ft.fee ≤ amount) :
    Coinbase.create amount receiver (some ft) =
      Except.ok ⟨receiver, amount, none⟩ := by
  simp [Coinbase.create, Coinbase.is_valid, hfee, hpk]

/-- Witness for claim C3 at a concrete coinbase. -/
theorem coinbase_create_normalizes_self_transfer_witness :
    Coinbase.create 1000 7 (some ⟨7, 200⟩) = Except.ok ⟨7, 1000, none⟩ :=
  coinbase_create_normalizes_self_transfer 1000 7 ⟨7, 200⟩ rfl (by decide)


/-- Claim C4: `validate_time` rejects exactly when
`current_global_slot > valid_until` (equality is accepted), and whenever
the expiry is violated `apply_user_command` returns a fatal `Err` (not a
`Failed` status); consequently `valid_until = 0` rejects every command at a
slot greater than zero and passes time validation at slot 0. -/
theorem validate_time_rejects_exactly_past_expiry
    (cons : SignedCommandPayload → Nat → Nat) (cc : ConstraintConstants)
    (slot : Nat) (l : Ledger) (cmd : SignedCommand) :
    (except_is_error (validate_time cmd.valid_until slot) = true ↔
      cmd.valid_until < slot) ∧
    (cmd.valid_until < slot →
      except_is_error (apply_user_command cons cc slot l cmd) = true) ∧
    (cmd.valid_until = 0 → 0 < slot →
      except_is_error (validate_time cmd.valid_until slot) = true) ∧
    (cmd.valid_until = 0 → slot = 0 →
      validate_time cmd.valid_until slot = Except.ok ()) := by
  have hval : ∀ vu s : Nat,
      except_is_error (validate_time vu s) = true ↔ vu < s := by
    intro vu s
    by_cases h : s ≤ vu <;> simp [validate_time, except_is_error, h] <;> omega
  refine ⟨hval cmd.valid_until slot, ?_, ?_, ?_⟩
  · intro h
    have hns : ¬ (slot ≤ cmd.valid_until) := by omega
    simp [apply_user_command, apply_user_command_unchecked, validate_time,
      except_is_error, hns]
  · intro h0 hs
    exact (hval cmd.valid_until slot).2 (by omega)
  · intro h0 hs
    simp [validate_time, h0, hs]

/-- Witness for claim C4: a concrete command with `valid_until = 0` applied
at slot 1 is rejected with a fatal error. -/
theorem validate_time_rejects_exactly_past_expiry_witness :
    except_is_error
      (apply_user_command (fun _ _ => 0) ⟨1⟩ 1 []
        ⟨⟨⟨0, 1, 0, 0, []⟩, SignedCommandBody.Payment ⟨1, 1, 0⟩⟩, 1, 0⟩) = true :=
  (validate_time_rejects_exactly_past_expiry (fun _ _ => 0) ⟨1⟩ 1 []
    ⟨⟨⟨0, 1, 0, 0, []⟩, SignedCommandBody.Payment ⟨1, 1, 0⟩⟩, 1, 0⟩).2.1
    (by decide)

/-- Claim C9: for the external snark-worker facade with its capacity-1
channels, `submit` returns `Busy` exactly when the data channel already
holds an unconsumed job, and `cancel` returns `Broken("already cancelled")`
exactly when a cancel signal is already queued; otherwise each returns
`Ok`. -/
theorem facade_submit_busy_cancel_broken_iff_full
    (f : ExternalSnarkWorkerFacade)
    (hd : f.data_chan.capacity = 1) (hc : f.cancel_chan.capacity = 1) :
    (f.submit = Except.error SnarkerError.Busy ↔ 1 ≤ f.data_chan.queued) ∧
    (f.data_chan.queued = 0 → ∃ g, f.submit = Except.ok g) ∧
    (f.cancel = Except.error (SnarkerError.Broken "already cancelled") ↔
      1 ≤ f.cancel_chan.queued) ∧
    (f.cancel_chan.queued = 0 → ∃ g, f.cancel = Except.ok g) := by
  refine ⟨?_, ?_, ?_, ?_⟩
  · by_cases h : f.data_chan.queued < 1 <;>
      simp [ExternalSnarkWorkerFacade.submit, BoundedChannel.try_send, hd, h] <;>
      omega
  · intro h0
    simp [ExternalSnarkWorkerFacade.submit, BoundedChannel.try_send, hd, h0]
  · by_cases h : f.cancel_chan.queued < 1 <;>
      simp [ExternalSnarkWorkerFacade.cancel, BoundedChannel.try_send, hc, h] <;>
      omega
  · intro h0
    simp [ExternalSnarkWorkerFacade.cancel, BoundedChannel.try_send, hc, h0]

/-- Witness for claim C9 at the freshly started facade (both channels
empty, capacity 1). -/
theorem facade_submit_busy_cancel_broken_iff_full_witness :
    (facade_start.submit = Except.error SnarkerError.Busy ↔
      1 ≤ facade_start.data_chan.queued) ∧
    (facade_start.data_chan.queued = 0 →
      ∃ g, facade_start.submit = Except.ok g) ∧
    (facade_start.cancel =
        Except.error (SnarkerError.Broken "already cancelled") ↔
      1 ≤ facade_start.cancel_chan.queued) ∧
    (facade_start.cancel_chan.queued = 0 →
      ∃ g, facade_start.cancel = Except.ok g) :=
  facade_submit_busy_cancel_broken_iff_full facade_start rfl rfl

/-- Counterexample to claim C8: in `probe_sync_state` the snarked peer-query
Init action for address `[true]` and peer `7` is enabled even though an
in-flight request of the same kind (a `Pending` attempt on address
`[false]`) already targets peer `7` — the enabling condition does not check
eligibility condition (c). -/
theorem snarked_peer_query_enabled_despite_inflight :
    snarked_peer_query_init_is_enabled probe_sync_state [true] 7 = true ∧
    peer_has_inflight_query probe_sync_state 7 = true := by
  constructor
  · rfl
  · rfl

/-- Claim C8 (amended): a snarked-ledger peer query (Init or Retry) is
enabled only for a peer whose RPC channel can accept a send and whose
announced best-tip hash equals the best-tip hash of the (necessarily
existing) sync target — the same best-tip match as block queries; the
absence of an in-flight request to the peer is not part of the enabling
condition. -/
theorem snarked_peer_query_enabled_requires_send_and_matching_tip
    (st : SyncGlobalState) (address : List Bool) (peer_id : Nat) :
    (snarked_peer_query_init_is_enabled st address peer_id = true →
      peer_can_send st peer_id = true ∧
      ∃ h p, st.sync_best_tip = some h ∧
        st.get_ready_peer peer_id = some p ∧ p.best_tip = some h) ∧
    (snarked_peer_query_retry_is_enabled st address peer_id = true →
      peer_can_send st peer_id = true ∧
      ∃ h p, st.sync_best_tip = some h ∧
        st.get_ready_peer peer_id = some p ∧ p.best_tip = some h) := by
  have havail : check_peer_available st peer_id = true →
      peer_can_send st peer_id = true ∧
      ∃ h p, st.sync_best_tip = some h ∧
        st.get_ready_peer peer_id = some p ∧ p.best_tip = some h := by
    intro h
    unfold check_peer_available at h
    split at h
    · exact absurd h (by simp)
    · rename_i p hp
      split at h
      · rename_i sbt pbt hs hb
        simp only [Bool.and_eq_true, decide_eq_true_eq] at h
        refine ⟨by simp [peer_can_send, hp, h.2], sbt, p, hs, hp, ?_⟩
        rw [hb, h.1]
      · exact absurd h (by simp)
  constructor
  · intro h
    unfold snarked_peer_query_init_is_enabled at h
    exact havail ((Bool.and_eq_true _ _ |>.mp h).2)
  · intro h
    unfold snarked_peer_query_retry_is_enabled at h
    exact havail ((Bool.and_eq_true _ _ |>.mp h).2)

/-- Witness for the amended claim C8 at the concrete probe state, where the
Init action is enabled. -/
theorem snarked_peer_query_enabled_requires_send_and_matching_tip_witness :
    peer_can_send probe_sync_state 7 = true ∧
    ∃ h p, probe_sync_state.sync_best_tip = some h ∧
      probe_sync_state.get_ready_peer 7 = some p ∧ p.best_tip = some h :=
  (snarked_peer_query_enabled_requires_send_and_matching_tip
    probe_sync_state [true] 7).1 (by rfl)

/-- A successful `get` implies the location is within the ledger. -/
theorem ledger_get_lt {l : Ledger} {i : Nat} {a : Account}
    (h : l.get i = some a) : i < l.length := by
  unfold Ledger.get at h
  exact (List.get?_eq_some.mp h).1

/-- Reading back a `set` location returns the written account. -/
theorem ledger_get_set_self {l : Ledger} {i : Nat} (b : Account)
    (h : i < l.length) : (l.set i b).get i = some b := by
  unfold Ledger.get Ledger.set
  exact List.get?_set_eq_of_lt b h

/-- Writing the same location twice keeps only the second write. -/
theorem ledger_set_set (l : Ledger) (n : Nat) (a b : Account) :
    (l.set n a).set n b = l.set n b := by
  unfold Ledger.set
  exact List.set_set a b l n

/-- Claim C1: for every signed command whose fee payment succeeds (fee payer
present with sufficient balance, matching nonce and valid timing, signer
equal to the fee payer, and `Send` permission), if the downstream
`compute_updates` check fails with some failure tag, then
`apply_user_command` returns `Ok` with status `Failed [[tag]]` (exactly
that one tag), applied body `Failed`, and the resulting ledger is exactly
the input ledger with the fee payer replaced by the account carrying the
fee deduction, the nonce increment, the receipt-chain-hash update and the
timing update. -/
theorem user_command_failure_keeps_fee_payment
    (cons : SignedCommandPayload → Nat → Nat) (cc : ConstraintConstants)
    (slot : Nat) (l : Ledger) (cmd : SignedCommand) (i : Nat)
    (old acct : Account) (t : Timing) (failure : TransactionFailure)
    (htime : slot ≤ cmd.valid_until)
    (hsigner : cmd.fee_payer.public_key = cmd.signer)
    (hloc : l.location_of_account cmd.fee_payer = some i)
    (hget : l.get i = some old)
    (hfee : cmd.fee ≤ old.balance)
    (hnonce : cmd.nonce = old.nonce)
    (htiming : validate_timing old cmd.fee slot = Except.ok t)
    (hsend : old.permissions.send = true)
    (hacct : acct =
      { old with
        balance := old.balance - cmd.fee
        nonce := nonce_incr old.nonce
        receipt_chain_hash := cons cmd.payload old.receipt_chain_hash
        timing := t })
    (hcompute : compute_updates cc cmd.source cmd.receiver (l.set i acct)
      slot cmd = Except.error failure) :
    pay_fee cons cmd cmd.signer l slot =
      Except.ok (ExistingOrNew.Existing i, acct) ∧
    apply_user_command cons cc slot l cmd =
      Except.ok
        (⟨⟨⟨cmd, TransactionStatus.Failed [[failure]]⟩⟩,
          SignedCommandAppliedBody.Failed⟩, l.set i acct) ∧
    (l.set i acct).get i = some acct ∧
    acct.balance + cmd.fee = old.balance ∧
    acct.nonce = nonce_incr old.nonce ∧
    acct.receipt_chain_hash = cons cmd.payload old.receipt_chain_hash := by
  have hfp : get_with_location l cmd.fee_payer =
      (ExistingOrNew.Existing i, old) := by
    simp [get_with_location, hloc, hget]
  have hsub : sub_amount old.balance cmd.fee =
      Except.ok (old.balance - cmd.fee) := by
    simp [sub_amount, sub_amount64, hfee]
  have hnon : validate_nonces cmd.nonce old.nonce = Except.ok () := by
    simp [validate_nonces, hnonce]
  have hpay : pay_fee cons cmd cmd.signer l slot =
      Except.ok (ExistingOrNew.Existing i, acct) := by
    simp [pay_fee, pay_fee_impl, hfp, SignedCommand.fee_token, hsigner,
      hsub, hnon, htiming, hacct]
  have happly : apply_user_command cons cc slot l cmd =
      Except.ok
        (⟨⟨⟨cmd, TransactionStatus.Failed [[failure]]⟩⟩,
          SignedCommandAppliedBody.Failed⟩, l.set i acct) := by
    have hsend2 : acct.permissions.send = true := by rw [hacct]; exact hsend
    simp [apply_user_command, apply_user_command_unchecked, validate_time,
      htime, hpay, Account.has_permission_to, hsend2, set_with_location,
      hcompute]
  refine ⟨hpay, happly, ledger_get_set_self acct (ledger_get_lt hget), ?_, ?_, ?_⟩
  · rw [hacct]
    exact Nat.sub_add_cancel hfee
  · rw [hacct]
  · rw [hacct]

/-- Witness for claim C1: a concrete payment whose source account is absent
fails with `Source_not_present` after the fee payer (balance 100, fee 10)
has been charged. -/
theorem user_command_failure_keeps_fee_payment_witness :
    apply_user_command (fun _ _ => 9) ⟨1⟩ 3
      [⟨1, 1, 100, 0, 7, none, Timing.Untimed, ⟨true, true, true⟩⟩]
      ⟨⟨⟨10, 1, 0, 5, []⟩, SignedCommandBody.Payment ⟨2, 1, 5⟩⟩, 1, 0⟩ =
      Except.ok
        (⟨⟨⟨⟨⟨⟨10, 1, 0, 5, []⟩, SignedCommandBody.Payment ⟨2, 1, 5⟩⟩, 1, 0⟩,
            TransactionStatus.Failed [[TransactionFailure.SourceNotPresent]]⟩⟩,
          SignedCommandAppliedBody.Failed⟩,
          Ledger.set [⟨1, 1, 100, 0, 7, none, Timing.Untimed, ⟨true, true, true⟩⟩]
            0 ⟨1, 1, 90, 1, 9, none, Timing.Untimed, ⟨true, true, true⟩⟩) :=
  (user_command_failure_keeps_fee_payment (fun _ _ => 9) ⟨1⟩ 3
    [⟨1, 1, 100, 0, 7, none, Timing.Untimed, ⟨true, true, true⟩⟩]
    ⟨⟨⟨10, 1, 0, 5, []⟩, SignedCommandBody.Payment ⟨2, 1, 5⟩⟩, 1, 0⟩ 0
    ⟨1, 1, 100, 0, 7, none, Timing.Untimed, ⟨true, true, true⟩⟩
    ⟨1, 1, 90, 1, 9, none, Timing.Untimed, ⟨true, true, true⟩⟩
    Timing.Untimed TransactionFailure.SourceNotPresent
    (by decide) (by decide) (by decide) (by decide) (by decide) (by decide)
    (by decide) (by decide) (by decide) (by decide)).2.1

/-- Claim C6: a fee transfer with any non-default fee token is a fatal
`Err`; a `Two` fee transfer whose singles target the same account id sums
the two fees and credits them in one update (minus the account-creation fee
when the account is newly added), with status `Applied` when the receiver
has the `Receive` permission, and with both fees burned (status
`Failed [[UpdateNotPermittedBalance],[UpdateNotPermittedBalance]]`, ledger
unchanged) otherwise. -/
theorem fee_transfer_default_token_and_same_receiver_merge :
    (∀ (cc : ConstraintConstants) (slot : Nat) (l : Ledger) (ft : FeeTransfer),
      ft.fee_tokens.all (fun t => t = TokenId.default_id) = false →
      apply_fee_transfer cc slot l ft =
        Except.error "Cannot pay fees in non-default tokens.") ∧
    (∀ (cc : ConstraintConstants) (slot : Nat) (l : Ledger)
      (ft1 ft2 : SingleFeeTransfer) (a : Account) (act : AccountState)
      (can : Bool) (tm : Timing) (amt : Nat),
      ft1.receiver = ft2.receiver →
      ft1.fee_token = TokenId.default_id →
      ft2.fee_token = TokenId.default_id →
      has_permission_to_receive l ft1.receiver = (a, act, can) →
      ft1.fee + ft2.fee < U64_LIMIT →
      update_timing_when_no_deduction slot a = Except.ok tm →
      sub_account_creation_fee cc act (ft1.fee + ft2.fee) = Except.ok amt →
      a.balance + amt < U64_LIMIT →
      (can = true →
        apply_fee_transfer cc slot l (OneOrTwo.Two ft1 ft2) =
          Except.ok
            (⟨⟨OneOrTwo.Two ft1 ft2, TransactionStatus.Applied⟩,
              (get_new_accounts act ft1.receiver).toList, 0⟩,
              Ledger.set (l.get_or_create ft1.receiver).2.2.2
                (l.get_or_create ft1.receiver).2.2.1
                { (l.get_or_create ft1.receiver).2.1 with
                  balance := a.balance + amt
                  timing := tm })) ∧
      (can = false →
        apply_fee_transfer cc slot l (OneOrTwo.Two ft1 ft2) =
          Except.ok
            (⟨⟨OneOrTwo.Two ft1 ft2,
                TransactionStatus.Failed
                  [[TransactionFailure.UpdateNotPermittedBalance],
                   [TransactionFailure.UpdateNotPermittedBalance]]⟩,
              [], ft1.fee + ft2.fee⟩, l))) := by
  constructor
  · intro cc slot l ft hbad
    simp [apply_fee_transfer, process_fee_transfer, hbad]
  · intro cc slot l ft1 ft2 a act can tm amt hr h1 h2 hq hfees ht hsac hadd
    rw [hr] at hq
    constructor
    · intro hcan
      subst hcan
      simp [apply_fee_transfer, process_fee_transfer, FeeTransfer.fee_tokens,
        h1, h2, hr, hq, add_amount64, hfees, ht, hsac, add_amount, hadd]
    · intro hcan
      subst hcan
      simp [apply_fee_transfer, process_fee_transfer, FeeTransfer.fee_tokens,
        h1, h2, hr, hq, add_amount64, hfees, ht, hsac, add_amount, hadd]

/-- Witness for claim C6: two singles of fees 5 and 7 to the same existing
receiver (balance 50, `Receive` allowed) are merged into one credit of 12,
with status `Applied` and no burn. -/
theorem fee_transfer_default_token_and_same_receiver_merge_witness :
    apply_fee_transfer ⟨2⟩ 0
      [⟨3, 1, 50, 0, 0, none, Timing.Untimed, ⟨true, true, true⟩⟩]
      (OneOrTwo.Two ⟨3, 5, 1⟩ ⟨3, 7, 1⟩) =
      Except.ok
        (⟨⟨OneOrTwo.Two ⟨3, 5, 1⟩ ⟨3, 7, 1⟩, TransactionStatus.Applied⟩, [], 0⟩,
          [⟨3, 1, 62, 0, 0, none, Timing.Untimed, ⟨true, true, true⟩⟩]) :=
  ((fee_transfer_default_token_and_same_receiver_merge.2 ⟨2⟩ 0
    [⟨3, 1, 50, 0, 0, none, Timing.Untimed, ⟨true, true, true⟩⟩]
    ⟨3, 5, 1⟩ ⟨3, 7, 1⟩
    ⟨3, 1, 50, 0, 0, none, Timing.Untimed, ⟨true, true, true⟩⟩
    AccountState.Existed true Timing.Untimed 12
    (by decide) (by decide) (by decide) (by decide) (by decide) (by decide)
    (by decide) (by decide)).1 rfl :)

/-- Counterexample to claim C2: with coinbase amount 1000, an attached fee
transfer of 200 to `X` (which denies `Receive`) and receiver `R ≠ X`, the
returned status is `Failed [[UpdateNotPermittedBalance], []]` — the
coinbase bucket is present but empty — not
`Failed [[UpdateNotPermittedBalance]]` as the claim states. -/
theorem coinbase_denied_receive_status_counterexample :
    Except.map (fun r => r.1.coinbase.status)
      (apply_coinbase ⟨1⟩ 0 [open_account 1 10, no_receive_account 2 50]
        ⟨1, 1000, some ⟨2, 200⟩⟩) =
      Except.ok (TransactionStatus.Failed
        [[TransactionFailure.UpdateNotPermittedBalance], []]) ∧
    TransactionStatus.Failed
        [[TransactionFailure.UpdateNotPermittedBalance], []] ≠
      TransactionStatus.Failed
        [[TransactionFailure.UpdateNotPermittedBalance]] := by
  decide

/-- Claim C2 (amended): for a coinbase of amount 1000 with attached fee
transfer `{receiver = X, fee = 200}`, coinbase receiver `R ≠ X`, where `X`
exists and denies `Receive`: `R` is credited 800 (minus the
account-creation fee when `R` is new), `X` is unchanged,
`burned_tokens = 200`, and the status is
`Failed [[UpdateNotPermittedBalance], []]` (the fee-transfer bucket holds
the failure; the coinbase bucket is empty). -/
theorem coinbase_denied_receive_amended
    (rpk xpk : Nat) (hne : rpk ≠ xpk) (rb xb cf slot : Nat)
    (hxb : xb + 200 < U64_LIMIT) (hrb : rb + 800 < U64_LIMIT)
    (hcf : cf ≤ 800) :
    (apply_coinbase ⟨cf⟩ slot
        [open_account rpk rb, no_receive_account xpk xb]
        ⟨rpk, 1000, some ⟨xpk, 200⟩⟩ =
      Except.ok
        (⟨⟨⟨rpk, 1000, some ⟨xpk, 200⟩⟩,
            TransactionStatus.Failed
              [[TransactionFailure.UpdateNotPermittedBalance], []]⟩,
          [], 200⟩,
          [{ open_account rpk rb with balance := rb + 800 },
            no_receive_account xpk xb])) ∧
    (apply_coinbase ⟨cf⟩ slot [no_receive_account xpk xb]
        ⟨rpk, 1000, some ⟨xpk, 200⟩⟩ =
      Except.ok
        (⟨⟨⟨rpk, 1000, some ⟨xpk, 200⟩⟩,
            TransactionStatus.Failed
              [[TransactionFailure.UpdateNotPermittedBalance], []]⟩,
          [⟨rpk, TokenId.default_id⟩], 200⟩,
          [no_receive_account xpk xb,
            { account_init ⟨rpk, TokenId.default_id⟩ with
              balance := 800 - cf }])) := by
  have hne2 : xpk ≠ rpk := Ne.symm hne
  have h800 : 0 + (800 - cf) < U64_LIMIT := by unfold U64_LIMIT; omega
  have h200 : (200 : Nat) < U64_LIMIT := by unfold U64_LIMIT; omega
  have h800b : 800 - cf < U64_LIMIT := by unfold U64_LIMIT; omega
  constructor
  · simp [apply_coinbase, has_permission_to_receive,
      Ledger.location_of_account, List.findIdx?_cons, List.findIdx?_nil,
      open_account, no_receive_account, Account.id, Account.has_permission_to,
      hne, hne2, update_timing_when_no_deduction, validate_timing,
      validate_timing_with_min_balance, validate_timing_with_min_balance_impl,
      sub_amount64, add_amount, add_amount64, sub_account_creation_fee,
      hxb, hrb, hcf, h800, h200, h800b, Ledger.get, Ledger.get_or_create,
      Ledger.set, CoinbaseFeeTransfer.receiver, TokenId.default_id,
      get_new_accounts, account_init, Permissions.user_default, Except.map]
  · simp [apply_coinbase, has_permission_to_receive,
      Ledger.location_of_account, List.findIdx?_cons, List.findIdx?_nil,
      open_account, no_receive_account, Account.id, Account.has_permission_to,
      hne, hne2, update_timing_when_no_deduction, validate_timing,
      validate_timing_with_min_balance, validate_timing_with_min_balance_impl,
      sub_amount64, add_amount, add_amount64, sub_account_creation_fee,
      hxb, hrb, hcf, h800, h200, h800b, Ledger.get, Ledger.get_or_create,
      Ledger.set, CoinbaseFeeTransfer.receiver, TokenId.default_id,
      get_new_accounts, account_init, Permissions.user_default, Except.map]

/-- Witness for the amended claim C2 with concrete balances (`R` existing
with balance 10, `X` with balance 50, creation fee 1). -/
theorem coinbase_denied_receive_amended_witness :
    apply_coinbase ⟨1⟩ 0 [open_account 1 10, no_receive_account 2 50]
      ⟨1, 1000, some ⟨2, 200⟩⟩ =
      Except.ok
        (⟨⟨⟨1, 1000, some ⟨2, 200⟩⟩,
            TransactionStatus.Failed
              [[TransactionFailure.UpdateNotPermittedBalance], []]⟩,
          [], 200⟩,
          [{ open_account 1 10 with balance := 810 },
            no_receive_account 2 50]) :=
  (coinbase_denied_receive_amended 1 2 (by decide) 10 50 1 0
    (by decide) (by decide) (by decide)).1

/-- Counterexample to claim C10: a self-payment (source = receiver) of
`u64::MAX` from an account with balance `u64::MAX` and fee 0 satisfies all
the claim's premises — the account exists, fee payment succeeds, `Send` and
`Receive` are allowed, the timing check for the amount passes — yet the
status is `Failed [[Overflow]]` rather than `Applied`, because crediting
the receiver overflows before the aliased source write is applied. -/
theorem payment_self_transfer_overflow_counterexample :
    SignedCommand.source
        ⟨⟨⟨0, 1, 0, 0, []⟩, SignedCommandBody.Payment ⟨1, 1, U64_MAX⟩⟩, 1, 0⟩ =
      SignedCommand.receiver
        ⟨⟨⟨0, 1, 0, 0, []⟩, SignedCommandBody.Payment ⟨1, 1, U64_MAX⟩⟩, 1, 0⟩ ∧
    except_is_error
      (pay_fee (fun _ _ => 0)
        ⟨⟨⟨0, 1, 0, 0, []⟩, SignedCommandBody.Payment ⟨1, 1, U64_MAX⟩⟩, 1, 0⟩ 1
        [open_account 1 U64_MAX] 0) = false ∧
    (open_account 1 U64_MAX).permissions.send = true ∧
    (open_account 1 U64_MAX).permissions.receive = true ∧
    validate_timing { open_account 1 U64_MAX with nonce := 1 } U64_MAX 0 =
      Except.ok Timing.Untimed ∧
    Except.map (fun r => r.1.common.user_command.status)
      (apply_user_command (fun _ _ => 0) ⟨1⟩ 0 [open_account 1 U64_MAX]
        ⟨⟨⟨0, 1, 0, 0, []⟩, SignedCommandBody.Payment ⟨1, 1, U64_MAX⟩⟩, 1, 0⟩) =
      Except.ok (TransactionStatus.Failed [[TransactionFailure.Overflow]]) := by
  decide

/-- Claim C10 (amended): for a payment whose source account id equals its
receiver account id, applied where the account exists, fee payment and the
`Send` / `Receive` permission checks and the timing check for the amount
all succeed, and the receiver credit does not overflow,
`apply_user_command` returns status `Applied` and the account's final state
is its post-fee-payment state with only the timing updated: the payment
amount is neither subtracted nor added, because the unmodified source
write at the same location overwrites the credited receiver write. -/
theorem payment_self_transfer_amended
    (cons : SignedCommandPayload → Nat → Nat) (cc : ConstraintConstants)
    (slot : Nat) (l : Ledger) (cmd : SignedCommand) (pp : PaymentPayload)
    (i j : Nat) (old acct src : Account) (t t2 : Timing)
    (hbody : cmd.payload.body = SignedCommandBody.Payment pp)
    (hsr : pp.source_pk = pp.receiver_pk)
    (htime : slot ≤ cmd.valid_until)
    (hsigner : cmd.fee_payer.public_key = cmd.signer)
    (hloc : l.location_of_account cmd.fee_payer = some i)
    (hget : l.get i = some old)
    (hfee : cmd.fee ≤ old.balance)
    (hnonce : cmd.nonce = old.nonce)
    (htiming : validate_timing old cmd.fee slot = Except.ok t)
    (hsend : old.permissions.send = true)
    (hacct : acct =
      { old with
        balance := old.balance - cmd.fee
        nonce := nonce_incr old.nonce
        receipt_chain_hash := cons cmd.payload old.receipt_chain_hash
        timing := t })
    (hloc2 : (l.set i acct).location_of_account cmd.receiver = some j)
    (hget2 : (l.set i acct).get j = some src)
    (hrecv : src.permissions.receive = true)
    (hsend2 : src.permissions.send = true)
    (htiming2 : validate_timing src pp.amount slot = Except.ok t2)
    (hnoover : src.balance + pp.amount < U64_LIMIT) :
    apply_user_command cons cc slot l cmd =
      Except.ok
        (⟨⟨⟨cmd, TransactionStatus.Applied⟩⟩,
          SignedCommandAppliedBody.Payments []⟩,
          (l.set i acct).set j { src with timing := t2 }) ∧
    ((l.set i acct).set j { src with timing := t2 }).get j =
      some { src with timing := t2 } := by
  have hfp : get_with_location l cmd.fee_payer =
      (ExistingOrNew.Existing i, old) := by
    simp [get_with_location, hloc, hget]
  have hsub : sub_amount old.balance cmd.fee =
      Except.ok (old.balance - cmd.fee) := by
    simp [sub_amount, sub_amount64, hfee]
  have hnon : validate_nonces cmd.nonce old.nonce = Except.ok () := by
    simp [validate_nonces, hnonce]
  have hpay : pay_fee cons cmd cmd.signer l slot =
      Except.ok (ExistingOrNew.Existing i, acct) := by
    simp [pay_fee, pay_fee_impl, hfp, SignedCommand.fee_token, hsigner,
      hsub, hnon, htiming, hacct]
  have hsreq : cmd.source = cmd.receiver := by
    simp [SignedCommand.source, SignedCommand.receiver, hbody, hsr]
  have hfp2 : get_with_location (l.set i acct) cmd.receiver =
      (ExistingOrNew.Existing j, src) := by
    simp [get_with_location, hloc2, hget2]
  have hcu : compute_updates cc cmd.source cmd.receiver (l.set i acct) slot
      cmd =
      Except.ok
        ⟨[(ExistingOrNew.Existing j,
            { src with timing := t2, balance := src.balance + pp.amount }),
          (ExistingOrNew.Existing j, { src with timing := t2 })],
          SignedCommandAppliedBody.Payments []⟩ := by
    simp [compute_updates, hbody, hfp2, hsreq, Account.has_permission_to,
      hrecv, hsend2, timing_error_to_user_command_status, htiming2,
      add_amount64, hnoover]
  have hsendA : acct.permissions.send = true := by rw [hacct]; exact hsend
  have happly : apply_user_command cons cc slot l cmd =
      Except.ok
        (⟨⟨⟨cmd, TransactionStatus.Applied⟩⟩,
          SignedCommandAppliedBody.Payments []⟩,
          (l.set i acct).set j { src with timing := t2 }) := by
    simp [apply_user_command, apply_user_command_unchecked, validate_time,
      htime, hpay, Account.has_permission_to, hsendA, set_with_location,
      hcu, bind, Except.bind, pure, Except.pure, ledger_set_set]
  refine ⟨happly, ?_⟩
  have hj : j < (l.set i acct).length := ledger_get_lt hget2
  exact ledger_get_set_self (l := l.set i acct) (i := j)
    { src with timing := t2 } hj

/-- Witness for the amended claim C10: a concrete self-payment of 30 with
fee 10 from a balance-100 account ends `Applied` with balance 90 (the fee
deduction only). -/
theorem payment_self_transfer_amended_witness :
    apply_user_command (fun _ _ => 4) ⟨1⟩ 0 [open_account 1 100]
      ⟨⟨⟨10, 1, 0, 0, []⟩, SignedCommandBody.Payment ⟨1, 1, 30⟩⟩, 1, 0⟩ =
      Except.ok
        (⟨⟨⟨⟨⟨⟨10, 1, 0, 0, []⟩, SignedCommandBody.Payment ⟨1, 1, 30⟩⟩, 1, 0⟩,
            TransactionStatus.Applied⟩⟩,
          SignedCommandAppliedBody.Payments []⟩,
          (Ledger.set [open_account 1 100] 0
              ⟨1, 1, 90, 1, 4, none, Timing.Untimed, ⟨true, true, true⟩⟩).set 0
            { (⟨1, 1, 90, 1, 4, none, Timing.Untimed, ⟨true, true, true⟩⟩ : Account) with
              timing := Timing.Untimed }) ∧
    ((Ledger.set [open_account 1 100] 0
          ⟨1, 1, 90, 1, 4, none, Timing.Untimed, ⟨true, true, true⟩⟩).set 0
        { (⟨1, 1, 90, 1, 4, none, Timing.Untimed, ⟨true, true, true⟩⟩ : Account) with
          timing := Timing.Untimed }).get 0 =
      some { (⟨1, 1, 90, 1, 4, none, Timing.Untimed, ⟨true, true, true⟩⟩ : Account) with
          timing := Timing.Untimed } :=
  payment_self_transfer_amended (fun _ _ => 4) ⟨1⟩ 0 [open_account 1 100]
    ⟨⟨⟨10, 1, 0, 0, []⟩, SignedCommandBody.Payment ⟨1, 1, 30⟩⟩, 1, 0⟩
    ⟨1, 1, 30⟩ 0 0 (open_account 1 100)
    ⟨1, 1, 90, 1, 4, none, Timing.Untimed, ⟨true, true, true⟩⟩
    ⟨1, 1, 90, 1, 4, none, Timing.Untimed, ⟨true, true, true⟩⟩
    Timing.Untimed Timing.Untimed
    (by decide) (by decide) (by decide) (by decide) (by decide) (by decide)
    (by decide) (by decide) (by decide) (by decide) (by decide) (by decide)
    (by decide) (by decide) (by decide) (by decide) (by decide)
